/-
  Verification of the per-step environment loop of the AMP_for_hardware
  legged-robot training environment (legged_gym/envs/base/legged_robot.py).

  Conventions of the shallow embedding:
  * Real-valued tensors are modelled over the rationals (ℚ); per-environment
    buffers are functions `Nat → ℚ`, per-environment-per-joint buffers are
    `Nat → Nat → ℚ` (environment index first).
  * `torch.clip(x, lo, hi)` is `clipQ`, `torch.clip(x, min=0)` is `max x 0`.
  * Fancy-index writes `buf[env_ids] = v` are masked pointwise updates
    (`maskedWrite2`), exactly matching the advanced-indexing semantics.
  * Comparisons of Euclidean norms against a non-negative constant c are
    embedded as comparisons of the squared norm against c^2, which is
    equivalent since both sides are non-negative; this keeps every
    definition inside ℚ (no square roots needed).
  * Random draws (torch_rand_float, torch.randint_like, torch.rand) are
    passed in as explicit oracle streams: the code's behaviour is proved for
    every possible draw.
  * Python exceptions (raise NameError) are modelled with `Except String`.
-/
import Mathlib

namespace LeggedRobot

/-- torch.clamp / torch.clip with both bounds: min is applied first, then max,
    i.e. the result is `min (max x lo) hi`. -/
def clipQ (x lo hi : ℚ) : ℚ := min (max x lo) hi

/-- Fancy-index row write `buf[env_ids] = v` on a 2-D buffer: rows listed in
    `ids` take the new values, all other rows are untouched. -/
def maskedWrite2 (buf : Nat → Nat → ℚ) (ids : List Nat) (v : Nat → Nat → ℚ) :
    Nat → Nat → ℚ :=
  fun i j => if i ∈ ids then v i j else buf i j

/-- Boolean success test for `Except`. -/
def exceptOk {ε α : Type} : Except ε α → Bool
  | Except.ok _ => true
  | Except.error _ => false

theorem clipQ_bounds (x lo hi : ℚ) (h : lo ≤ hi) :
    lo ≤ clipQ x lo hi ∧ clipQ x lo hi ≤ hi := by
  unfold clipQ
  exact ⟨le_min (le_max_right x lo) h, min_le_right _ _⟩

/-!  ## Control / actuation stage: `_compute_torques`
     (legged_robot.py lines 804-838)  -/

/-- All per-environment / per-joint inputs that `_compute_torques` reads.
    `motor_strength0/1` are the two slices of the (2, num_envs, num_actions)
    motor-strength tensor; `p_gains`/`d_gains` are the per-joint gain vectors
    used by the velocity controller; `torque_limits` is the per-joint limit
    vector derived from the asset. -/
structure TorqueParams where
  action_scale : ℚ
  control_type : String
  randomize_motor : Bool
  motor_strength0 : Nat → Nat → ℚ
  motor_strength1 : Nat → Nat → ℚ
  p_gains_all : Nat → Nat → ℚ
  d_gains_all : Nat → Nat → ℚ
  default_dof_pos_all : Nat → Nat → ℚ
  dof_pos : Nat → Nat → ℚ
  dof_vel : Nat → Nat → ℚ
  last_dof_vel : Nat → Nat → ℚ
  motor_offsets : Nat → Nat → ℚ
  joint_coulomb : Nat → Nat → ℚ
  joint_viscous : Nat → Nat → ℚ
  torque_multi : Nat → Nat → ℚ
  p_gains : Nat → ℚ
  d_gains : Nat → ℚ
  dt : ℚ
  torque_limits : Nat → ℚ

/-- Position-mode torque with motor randomization, exactly as the source
    computes it before the final clip:
    (strength0 * p_gains_all * (actions_scaled + default_dof_pos_all - dof_pos
      + motor_offsets) - strength1 * d_gains_all * dof_vel
      - joint_coulomb * dof_vel - joint_viscous) * torque_multi. -/
def p_torques_randomized (e : TorqueParams) (actions_scaled : Nat → Nat → ℚ)
    (i j : Nat) : ℚ :=
  (e.motor_strength0 i j * e.p_gains_all i j *
      (actions_scaled i j + e.default_dof_pos_all i j - e.dof_pos i j
        + e.motor_offsets i j)
    - e.motor_strength1 i j * e.d_gains_all i j * e.dof_vel i j
    - e.joint_coulomb i j * e.dof_vel i j
    - e.joint_viscous i j) * e.torque_multi i j

/-- Position-mode torque without motor randomization. -/
def p_torques_plain (e : TorqueParams) (actions_scaled : Nat → Nat → ℚ)
    (i j : Nat) : ℚ :=
  e.p_gains_all i j *
      (actions_scaled i j + e.default_dof_pos_all i j - e.dof_pos i j)
    - e.d_gains_all i j * e.dof_vel i j

/-- Velocity-mode torque. -/
def v_torques (e : TorqueParams) (actions_scaled : Nat → Nat → ℚ)
    (i j : Nat) : ℚ :=
  e.p_gains j * (actions_scaled i j - e.dof_vel i j)
    - e.d_gains j * (e.dof_vel i j - e.last_dof_vel i j) / e.dt

/-- `_compute_torques(actions)`: scale the actions, dispatch on the control
    type (raising for an unknown one), and clip the result element-wise to
    the per-joint torque limits. -/
def compute_torques (e : TorqueParams) (actions : Nat → Nat → ℚ) :
    Except String (Nat → Nat → ℚ) :=
  let actions_scaled : Nat → Nat → ℚ := fun i j => actions i j * e.action_scale
  let raw : Except String (Nat → Nat → ℚ) :=
    if e.control_type = "P" then
      Except.ok (if e.randomize_motor then p_torques_randomized e actions_scaled
                 else p_torques_plain e actions_scaled)
    else if e.control_type = "V" then
      Except.ok (v_torques e actions_scaled)
    else if e.control_type = "T" then
      Except.ok actions_scaled
    else
      Except.error ("Unknown controller type: " ++ e.control_type)
  raw.map (fun t => fun i j =>
    clipQ (t i j) (-(e.torque_limits j)) (e.torque_limits j))

/-- Every successful result of `compute_torques` is an element-wise clip of
    some raw torque to the per-joint limits. -/
theorem compute_torques_ok_clip (e : TorqueParams) (actions : Nat → Nat → ℚ)
    (t : Nat → Nat → ℚ) (hok : compute_torques e actions = Except.ok t) :
    ∃ g : Nat → Nat → ℚ,
      t = fun i j => clipQ (g i j) (-(e.torque_limits j)) (e.torque_limits j) := by
  unfold compute_torques at hok
  split at hok
  · simp only [Except.map, Except.ok.injEq] at hok
    exact ⟨_, hok.symm⟩
  · split at hok
    · simp only [Except.map, Except.ok.injEq] at hok
      exact ⟨_, hok.symm⟩
    · split at hok
      · simp only [Except.map, Except.ok.injEq] at hok
        exact ⟨_, hok.symm⟩
      · simp only [Except.map] at hok
        exact absurd hok (by simp)

/-- C2: for every action input to `_compute_torques` (including out-of-range
    actions) and every control mode, each component of a successfully
    returned torque vector lies within the per-joint torque limits
    `[-torque_limits j, torque_limits j]` (the limits being non-negative). -/
theorem compute_torques_within_limits (e : TorqueParams)
    (actions t : Nat → Nat → ℚ) (i j : Nat)
    (hL : 0 ≤ e.torque_limits j)
    (hok : compute_torques e actions = Except.ok t) :
    -(e.torque_limits j) ≤ t i j ∧ t i j ≤ e.torque_limits j := by
  obtain ⟨g, ht⟩ := compute_torques_ok_clip e actions t hok
  subst ht
  exact clipQ_bounds (g i j) _ _ (le_trans (neg_nonpos.mpr hL) hL)

/-- A concrete parameter set: torque-control mode, zero buffers, unit torque
    limits. -/
def torqueParams0 : TorqueParams where
  action_scale := 0
  control_type := "T"
  randomize_motor := false
  motor_strength0 := fun _ _ => 0
  motor_strength1 := fun _ _ => 0
  p_gains_all := fun _ _ => 0
  d_gains_all := fun _ _ => 0
  default_dof_pos_all := fun _ _ => 0
  dof_pos := fun _ _ => 0
  dof_vel := fun _ _ => 0
  last_dof_vel := fun _ _ => 0
  motor_offsets := fun _ _ => 0
  joint_coulomb := fun _ _ => 0
  joint_viscous := fun _ _ => 0
  torque_multi := fun _ _ => 0
  p_gains := fun _ => 0
  d_gains := fun _ => 0
  dt := 1
  torque_limits := fun _ => 1

def a0 : Nat → Nat → ℚ := fun _ _ => 2

def t0 : Nat → Nat → ℚ := fun i j =>
  clipQ (a0 i j * torqueParams0.action_scale)
    (-(torqueParams0.torque_limits j)) (torqueParams0.torque_limits j)

theorem compute_torques_within_limits_witness :
    (0:ℚ) ≤ torqueParams0.torque_limits 0 ∧
      (-(torqueParams0.torque_limits 0) ≤ t0 0 0 ∧
        t0 0 0 ≤ torqueParams0.torque_limits 0) :=
  ⟨by norm_num [torqueParams0],
    compute_torques_within_limits torqueParams0 a0 t0 0 0
      (by norm_num [torqueParams0]) rfl⟩

/-- C9: `_compute_torques` succeeds exactly for the control types "P", "V",
    "T"; every other configured control type raises
    (`NameError: Unknown controller type`), modelled as an `Except.error`
    result — the function is pure, so no state is written on the error
    path. -/
theorem compute_torques_ok_iff (e : TorqueParams) (actions : Nat → Nat → ℚ) :
    exceptOk (compute_torques e actions) = true ↔
      (e.control_type = "P" ∨ e.control_type = "V" ∨ e.control_type = "T") := by
  unfold compute_torques
  by_cases hP : e.control_type = "P" <;>
    by_cases hV : e.control_type = "V" <;>
      by_cases hT : e.control_type = "T" <;>
        simp [hP, hV, hT, Except.map, exceptOk]

/-- Sign of a rational, as the spec's "sign of joint velocity". -/
def signQ (x : ℚ) : ℚ := if 0 < x then 1 else if x < 0 then -1 else 0

/-- Modelled from the spec (§4.1 Position mode): torque =
    strength0 * p_gain * (scaled_action + default_pos + motor_offset - pos)
    - strength1 * d_gain * vel - coulomb * sign(vel) - viscous * vel,
    then multiplied by the per-environment torque multiplier.  This is the
    formula the spec states; compare `p_torques_randomized`, taken from the
    source. -/
def spec_p_torques_randomized (e : TorqueParams)
    (actions_scaled : Nat → Nat → ℚ) (i j : Nat) : ℚ :=
  (e.motor_strength0 i j * e.p_gains_all i j *
      (actions_scaled i j + e.default_dof_pos_all i j + e.motor_offsets i j
        - e.dof_pos i j)
    - e.motor_strength1 i j * e.d_gains_all i j * e.dof_vel i j
    - e.joint_coulomb i j * signQ (e.dof_vel i j)
    - e.joint_viscous i j * e.dof_vel i j) * e.torque_multi i j

/-- Position mode with motor randomization, joint velocity 3, coulomb
    coefficient 1, torque multiplier 1, all other gains and buffers zero. -/
def torqueParams1 : TorqueParams :=
  { torqueParams0 with
      control_type := "P"
      randomize_motor := true
      dof_vel := fun _ _ => 3
      joint_coulomb := fun _ _ => 1
      torque_multi := fun _ _ => 1 }

/-- C7 counterexample: at joint velocity 3 with coulomb coefficient 1 and
    viscous coefficient 0 the source's pre-clip position-mode torque is
    `- coulomb * vel = -3`, while the claimed formula
    `- coulomb * sign(vel) - viscous * vel` gives `-1`: the code multiplies
    the coulomb coefficient by the velocity itself (not its sign) and
    subtracts the viscous coefficient as a constant (not times the
    velocity). -/
theorem p_torques_randomized_spec_mismatch :
    p_torques_randomized torqueParams1 (fun _ _ => 0) 0 0 = -3 ∧
      spec_p_torques_randomized torqueParams1 (fun _ _ => 0) 0 0 = -1 ∧
      p_torques_randomized torqueParams1 (fun _ _ => 0) 0 0 ≠
        spec_p_torques_randomized torqueParams1 (fun _ _ => 0) 0 0 := by
  norm_num [p_torques_randomized, spec_p_torques_randomized, signQ,
    torqueParams1, torqueParams0]

/-- C7 (amended): in position mode with motor randomization,
    `_compute_torques` returns, component-wise, the clip to the torque
    limits of
    (strength0 * p_gains_all * (scaled_action + default_pos - pos + offset)
     - strength1 * d_gains_all * vel - coulomb * vel - viscous) * multiplier:
    the coulomb-friction coefficient multiplies the joint velocity and the
    viscous coefficient is subtracted as a constant. -/
theorem compute_torques_P_randomized_formula (e : TorqueParams)
    (actions t : Nat → Nat → ℚ)
    (hP : e.control_type = "P") (hR : e.randomize_motor = true)
    (hok : compute_torques e actions = Except.ok t) (i j : Nat) :
    t i j = clipQ
      ((e.motor_strength0 i j * e.p_gains_all i j *
          (actions i j * e.action_scale + e.default_dof_pos_all i j
            - e.dof_pos i j + e.motor_offsets i j)
        - e.motor_strength1 i j * e.d_gains_all i j * e.dof_vel i j
        - e.joint_coulomb i j * e.dof_vel i j
        - e.joint_viscous i j) * e.torque_multi i j)
      (-(e.torque_limits j)) (e.torque_limits j) := by
  unfold compute_torques at hok
  simp only [hP, hR, if_true, Except.map, Except.ok.injEq] at hok
  subst hok
  rfl

def t1 : Nat → Nat → ℚ := fun i j =>
  clipQ (p_torques_randomized torqueParams1
      (fun i j => ((fun _ _ => (0:ℚ)) i j) * torqueParams1.action_scale) i j)
    (-(torqueParams1.torque_limits j)) (torqueParams1.torque_limits j)

theorem compute_torques_P_randomized_formula_witness :
    torqueParams1.control_type = "P" ∧ torqueParams1.randomize_motor = true ∧
      t1 0 0 = -1 := by
  refine ⟨rfl, rfl, ?_⟩
  have h := compute_torques_P_randomized_formula torqueParams1 (fun _ _ => 0)
    t1 rfl rfl rfl 0 0
  rw [h]
  norm_num [torqueParams1, torqueParams0, clipQ]

/-!  ## Reward engine: `compute_reward`
     (legged_robot.py lines 360-377)  -/

/-- The accumulated total of the non-termination reward terms for
    environment `i`: each term value times its (dt-premultiplied) scale,
    summed in registry order.  `terms` is the `(reward_names[k],
    reward_functions[k])` list prepared by `_prepare_reward_function`, which
    never contains the `termination` term. -/
def pre_termination_rew (terms : List (String × (Nat → ℚ)))
    (reward_scales : String → ℚ) (i : Nat) : ℚ :=
  (terms.map (fun nf => nf.2 i * reward_scales nf.1)).sum

/-- `compute_reward` for environment `i`: sum the non-termination terms,
    clip at zero when `only_positive_rewards` is set, and only then — when
    "termination" is among the reward scales — add the termination term
    times its scale. -/
def compute_reward_total (terms : List (String × (Nat → ℚ)))
    (reward_scales : String → ℚ) (only_positive_rewards : Bool)
    (has_termination : Bool) (termination_rew : Nat → ℚ) (i : Nat) : ℚ :=
  let pre := pre_termination_rew terms reward_scales i
  let clipped := if only_positive_rewards then max pre 0 else pre
  if has_termination then
    clipped + termination_rew i * reward_scales "termination"
  else clipped

/-- C1: with `only_positive_rewards` enabled and a negative accumulated
    non-termination total, the total is clamped to exactly 0 before the
    termination term is computed, and (when a termination scale is
    configured) the termination contribution is added after the clamp, so
    it is never removed by it. -/
theorem compute_reward_clamps_before_termination
    (terms : List (String × (Nat → ℚ))) (reward_scales : String → ℚ)
    (has_termination : Bool) (termination_rew : Nat → ℚ) (i : Nat)
    (hneg : pre_termination_rew terms reward_scales i < 0) :
    compute_reward_total terms reward_scales true has_termination
        termination_rew i =
      (if has_termination then termination_rew i * reward_scales "termination"
       else 0) := by
  cases has_termination <;>
    simp [compute_reward_total, max_eq_right (le_of_lt hneg)]

/-- One negative regularization term with scale 1 and a termination penalty
    of -5 with scale 2. -/
def terms0 : List (String × (Nat → ℚ)) := [("torques", fun _ => -4)]

theorem compute_reward_clamps_before_termination_witness :
    pre_termination_rew terms0 (fun _ => 1) 0 < 0 ∧
      compute_reward_total terms0 (fun _ => 1) true true (fun _ => -5) 0 =
        -5 := by
  have h := compute_reward_clamps_before_termination terms0 (fun _ => 1)
    true (fun _ => -5) 0 (by norm_num [pre_termination_rew, terms0])
  refine ⟨by norm_num [pre_termination_rew, terms0], ?_⟩
  rw [h]
  norm_num

/-!  ## Episode lifecycle: `check_termination` and `_reward_termination`
     (legged_robot.py lines 229-238 and 1457-1459)  -/

/-- Squared Euclidean norm of a 3-vector of contact forces. -/
def normSq3 (v : ℚ × ℚ × ℚ) : ℚ := v.1 ^ 2 + v.2.1 ^ 2 + v.2.2 ^ 2

/-- `torch.any(torch.norm(contact_forces[:, termination_contact_indices, :],
    dim=-1) > 1., dim=1)` for environment `i`.  The norm comparison
    `‖f‖ > 1` is embedded as `‖f‖² > 1`, equivalent since both sides are
    non-negative. -/
def contact_violation (contact_forces : Nat → Nat → ℚ × ℚ × ℚ)
    (termination_contact_indices : List Nat) (i : Nat) : Bool :=
  termination_contact_indices.any
    (fun b => decide (1 < normSq3 (contact_forces i b)))

/-- `check_termination`: returns the pair `(reset_buf, time_out_buf)`.
    `reset_buf` starts at zero, is set from the contact-force check when
    `cfg.env.check_contact` holds, and is then or-ed with the timeout flag
    `episode_length_buf > max_episode_length`. -/
def check_termination (check_contact : Bool)
    (contact_forces : Nat → Nat → ℚ × ℚ × ℚ)
    (termination_contact_indices : List Nat)
    (episode_length_buf : Nat → Nat) (max_episode_length : ℚ) :
    (Nat → Bool) × (Nat → Bool) :=
  let reset0 : Nat → Bool := fun i =>
    if check_contact then
      contact_violation contact_forces termination_contact_indices i
    else false
  let time_out : Nat → Bool := fun i =>
    decide (max_episode_length < (episode_length_buf i : ℚ))
  (fun i => reset0 i || time_out i, time_out)

/-- `_reward_termination`: `reset_buf * ~time_out_buf` for environment `i`
    (with the bool buffers read as 0/1 integers). -/
def reward_termination (reset_buf time_out_buf : Nat → Bool) (i : Nat) : ℚ :=
  (if reset_buf i then 1 else 0) * (if time_out_buf i then 0 else 1)

/-- C3: an environment whose step count exceeds `max_episode_length` and
    whose termination-listed contact forces do not exceed the threshold gets
    `time_out_buf = 1` and `reset_buf = 1` from `check_termination`, and the
    termination reward term `reset_buf * ~time_out_buf` evaluates to 0 for
    it, so a timeout never incurs the terminal penalty. -/
theorem check_termination_timeout_no_penalty (check_contact : Bool)
    (contact_forces : Nat → Nat → ℚ × ℚ × ℚ)
    (termination_contact_indices : List Nat)
    (episode_length_buf : Nat → Nat) (max_episode_length : ℚ) (i : Nat)
    (hlen : max_episode_length < (episode_length_buf i : ℚ))
    (hcf : contact_violation contact_forces termination_contact_indices i =
      false) :
    ((check_termination check_contact contact_forces
        termination_contact_indices episode_length_buf
        max_episode_length).2 i = true) ∧
    ((check_termination check_contact contact_forces
        termination_contact_indices episode_length_buf
        max_episode_length).1 i = true) ∧
    reward_termination
      (check_termination check_contact contact_forces
        termination_contact_indices episode_length_buf max_episode_length).1
      (check_termination check_contact contact_forces
        termination_contact_indices episode_length_buf max_episode_length).2
      i = 0 := by
  unfold check_termination reward_termination
  simp only [hcf]
  cases check_contact <;> simp [hlen]

theorem check_termination_timeout_no_penalty_witness :
    ((2:ℚ) < ((3:Nat) : ℚ)) ∧
      (contact_violation (fun _ _ => (0, 0, 0)) [0] 0 = false) ∧
      reward_termination
        (check_termination true (fun _ _ => (0, 0, 0)) [0] (fun _ => 3) 2).1
        (check_termination true (fun _ _ => (0, 0, 0)) [0] (fun _ => 3) 2).2
        0 = 0 := by
  refine ⟨by norm_num, by norm_num [contact_violation, normSq3], ?_⟩
  exact (check_termination_timeout_no_penalty true (fun _ _ => (0, 0, 0)) [0]
    (fun _ => 3) 2 0 (by norm_num)
    (by norm_num [contact_violation, normSq3])).2.2

/-!  ## Command sampler: `_resample_commands`
     (legged_robot.py lines 788-802)  -/

/-- Fancy-index column write `buf[env_ids, col] = v` on the commands
    buffer. -/
def maskedWriteCol (buf : Nat → Nat → ℚ) (ids : List Nat) (col : Nat)
    (v : Nat → ℚ) : Nat → Nat → ℚ :=
  fun i j => if i ∈ ids ∧ j = col then v i else buf i j

/-- `_resample_commands(env_ids)`: draw `lin_vel_x` into column 0,
    `lin_vel_y` into column 1, then (by config) either `heading` into
    column 3 or `ang_vel_yaw` into column 2; finally multiply the two linear
    columns of the resampled rows by the deadband mask
    `norm(commands[env_ids, :2]) > 0.2` (embedded squared:
    `x² + y² > (1/5)²`, equivalent since both sides are non-negative).
    `r0 r1 r2` are the three uniform draws. -/
def resample_commands (commands : Nat → Nat → ℚ) (ids : List Nat)
    (heading_command : Bool) (r0 r1 r2 : Nat → ℚ) : Nat → Nat → ℚ :=
  let c0 := maskedWriteCol commands ids 0 r0
  let c1 := maskedWriteCol c0 ids 1 r1
  let c2 := if heading_command then maskedWriteCol c1 ids 3 r2
            else maskedWriteCol c1 ids 2 r2
  fun i j =>
    if i ∈ ids ∧ j < 2 then
      c2 i j * (if ((1:ℚ)/5) ^ 2 < (c2 i 0) ^ 2 + (c2 i 1) ^ 2 then 1 else 0)
    else c2 i j

/-- C5: after `_resample_commands(env_ids)`, for every environment in
    `env_ids`: if the Euclidean norm of the two sampled linear components is
    at most 0.2 (squared: `r0² + r1² ≤ (1/5)²`) both linear components are
    exactly 0, and otherwise both keep their sampled values. -/
theorem resample_commands_deadband (commands : Nat → Nat → ℚ)
    (ids : List Nat) (heading_command : Bool) (r0 r1 r2 : Nat → ℚ) (i : Nat)
    (hmem : i ∈ ids) :
    ((r0 i) ^ 2 + (r1 i) ^ 2 ≤ ((1:ℚ)/5) ^ 2 →
      resample_commands commands ids heading_command r0 r1 r2 i 0 = 0 ∧
      resample_commands commands ids heading_command r0 r1 r2 i 1 = 0) ∧
    (((1:ℚ)/5) ^ 2 < (r0 i) ^ 2 + (r1 i) ^ 2 →
      resample_commands commands ids heading_command r0 r1 r2 i 0 = r0 i ∧
      resample_commands commands ids heading_command r0 r1 r2 i 1 = r1 i) := by
  have h0 : ∀ hc : Bool,
      (if hc then maskedWriteCol (maskedWriteCol (maskedWriteCol commands ids
          0 r0) ids 1 r1) ids 3 r2
       else maskedWriteCol (maskedWriteCol (maskedWriteCol commands ids 0 r0)
          ids 1 r1) ids 2 r2) i 0 = r0 i := by
    intro hc
    cases hc <;> simp [maskedWriteCol, hmem]
  have h1 : ∀ hc : Bool,
      (if hc then maskedWriteCol (maskedWriteCol (maskedWriteCol commands ids
          0 r0) ids 1 r1) ids 3 r2
       else maskedWriteCol (maskedWriteCol (maskedWriteCol commands ids 0 r0)
          ids 1 r1) ids 2 r2) i 1 = r1 i := by
    intro hc
    cases hc <;> simp [maskedWriteCol, hmem]
  have e0 : resample_commands commands ids heading_command r0 r1 r2 i 0 =
      r0 i * (if ((1:ℚ)/5) ^ 2 < (r0 i) ^ 2 + (r1 i) ^ 2 then 1 else 0) := by
    simp only [resample_commands]
    rw [h0 heading_command, h1 heading_command]
    rw [if_pos (⟨hmem, by norm_num⟩ : i ∈ ids ∧ 0 < 2)]
  have e1 : resample_commands commands ids heading_command r0 r1 r2 i 1 =
      r1 i * (if ((1:ℚ)/5) ^ 2 < (r0 i) ^ 2 + (r1 i) ^ 2 then 1 else 0) := by
    simp only [resample_commands]
    rw [h0 heading_command, h1 heading_command]
    rw [if_pos (⟨hmem, by norm_num⟩ : i ∈ ids ∧ 1 < 2)]
  constructor
  · intro hsmall
    have hnot : ¬ ((1:ℚ)/5) ^ 2 < (r0 i) ^ 2 + (r1 i) ^ 2 :=
      not_lt.mpr hsmall
    rw [e0, e1, if_neg hnot, mul_zero, mul_zero]
    exact ⟨rfl, rfl⟩
  · intro hbig
    rw [e0, e1, if_pos hbig, mul_one, mul_one]
    exact ⟨rfl, rfl⟩

theorem resample_commands_deadband_witness :
    ((0:Nat) ∈ [0]) ∧
      (((1:ℚ)/10) ^ 2 + 0 ^ 2 ≤ ((1:ℚ)/5) ^ 2 ∧
        resample_commands (fun _ _ => 7) [0] false (fun _ => 1/10)
          (fun _ => 0) (fun _ => 0) 0 0 = 0 ∧
        resample_commands (fun _ _ => 7) [0] false (fun _ => 1/10)
          (fun _ => 0) (fun _ => 0) 0 1 = 0) := by
  have h := (resample_commands_deadband (fun _ _ => 7) [0] false
    (fun _ => 1/10) (fun _ => 0) (fun _ => 0) 0 (by simp)).1
    (by norm_num)
  exact ⟨by simp, by norm_num, h.1, h.2⟩

/-!  ## Batched environment state, configuration and randomness oracles
     for the stateful operations (`reset_idx`, `randomize_motor_props`,
     `randomize_dof_props`, `_update_terrain_curriculum`).  -/

/-- The configuration options read by the reset / randomization path
    (cfg.terrain, cfg.commands, cfg.domain_rand, cfg.env, cfg.rewards). -/
structure Cfg where
  terrain_curriculum : Bool
  commands_curriculum : Bool
  RSI : Bool
  RSI_traj_rand : Bool
  RSI_rand : Bool
  randomize_motor : Bool
  randomize_torque : Bool
  randomize_motor_offset : Bool
  randomize_gains : Bool
  randomize_coulomb_friction : Bool
  randomize_joint_friction : Bool
  randomize_joint_friction_each_joint : Bool
  randomize_joint_damping : Bool
  randomize_joint_damping_each_joint : Bool
  randomize_joint_armature : Bool
  randomize_joint_armature_each_joint : Bool
  heading_command : Bool
  send_timeouts : Bool
  custom_origins : Bool
  num_envs : Nat
  num_dof : Nat
  max_episode_length : Nat
  max_episode_length_s : ℚ
  max_curriculum : ℚ
  env_length : ℚ
  max_terrain_level : Int
  reward_keys : List String
  reward_scales : String → ℚ
  default_dof_pos : Nat → ℚ
  base_init_state : Nat → ℚ
  terrain_origins : Int → Nat → Nat → ℚ

/-- The per-environment buffers mutated along the reset path.  2-D buffers
    take the environment index first.  `max_episode_length` is whole-valued
    (ceil of seconds / dt), so the step counter and the modulo check are
    over Nat; `reset_buf` holds 0/1.  The `extras_*` fields model the
    entries written into the `extras` info dict. -/
structure RobotState where
  commands : Nat → Nat → ℚ
  dof_pos : Nat → Nat → ℚ
  dof_vel : Nat → Nat → ℚ
  root_states : Nat → Nat → ℚ
  origin_xy : Nat → Nat → ℚ
  torque_multi : Nat → Nat → ℚ
  motor_offsets : Nat → Nat → ℚ
  p_gains_all : Nat → Nat → ℚ
  d_gains_all : Nat → Nat → ℚ
  joint_coulomb : Nat → Nat → ℚ
  joint_viscous : Nat → Nat → ℚ
  joint_friction_factor : Nat → Nat → ℚ
  joint_damping_factor : Nat → Nat → ℚ
  joint_armature_factor : Nat → Nat → ℚ
  last_actions : Nat → Nat → ℚ
  last_dof_vel : Nat → Nat → ℚ
  last_dof_pos : Nat → Nat → ℚ
  last_torques : Nat → Nat → ℚ
  feet_air_time : Nat → Nat → ℚ
  episode_length_buf : Nat → Nat
  reset_buf : Nat → Nat
  action_history_buf : Nat → Nat → Nat → ℚ
  episode_sums : String → Nat → ℚ
  terrain_levels : Nat → Int
  terrain_types : Nat → Nat
  env_origins : Nat → Nat → ℚ
  command_ranges_lin_vel_x : ℚ × ℚ
  extras_episode : List (String × ℚ)
  extras_terrain_level : Option ℚ
  extras_max_command_x : Option ℚ
  extras_time_outs : Option (Nat → Bool)
  time_out_buf : Nat → Bool
  common_step_counter : Nat
  init_done : Bool

/-- Explicit streams standing for every random draw (torch_rand_float,
    torch.randint_like) and for the frames returned by the external motion
    loader; the reset path is proved correct for every possible draw.
    `frame_lin_vel_world` / `frame_ang_vel_world` are the loader velocities
    already rotated into the world frame by `quat_rotate` (the rotation of
    an externally supplied frame is itself external input). -/
structure ResetOracles where
  cmd0 : Nat → ℚ
  cmd1 : Nat → ℚ
  cmd2 : Nat → ℚ
  dof_pos_scale : Nat → Nat → ℚ
  root_xy : Nat → Nat → ℚ
  root_vel : Nat → Nat → ℚ
  torque_multi : Nat → Nat → ℚ
  motor_offsets : Nat → Nat → ℚ
  p_factor : Nat → Nat → ℚ
  d_factor : Nat → Nat → ℚ
  coulomb : Nat → Nat → ℚ
  viscous : Nat → Nat → ℚ
  jf_each : Nat → Nat → ℚ
  jf : Nat → ℚ
  jd_each : Nat → Nat → ℚ
  jd : Nat → ℚ
  ja_each : Nat → Nat → ℚ
  ja : Nat → ℚ
  terrain_rand : Nat → Int
  frame_dof_pos : Nat → Nat → ℚ
  frame_dof_vel : Nat → Nat → ℚ
  rsi_noise : Nat → Nat → ℚ
  frame_root_pos : Nat → Nat → ℚ
  frame_root_orn : Nat → Nat → ℚ
  frame_lin_vel_world : Nat → Nat → ℚ
  frame_ang_vel_world : Nat → Nat → ℚ

/-!  ## Domain randomization engine: `randomize_motor_props`,
     `randomize_dof_props` (legged_robot.py lines 491-567)  -/

/-- `randomize_torque` branch of `randomize_motor_props`. -/
def rand_torque_step (cfg : Cfg) (s : RobotState) (ids : List Nat)
    (orc : ResetOracles) : RobotState :=
  if cfg.randomize_torque then
    { s with torque_multi := maskedWrite2 s.torque_multi ids orc.torque_multi }
  else s

/-- `randomize_motor_offset` branch. -/
def rand_offset_step (cfg : Cfg) (s : RobotState) (ids : List Nat)
    (orc : ResetOracles) : RobotState :=
  if cfg.randomize_motor_offset then
    { s with motor_offsets := maskedWrite2 s.motor_offsets ids orc.motor_offsets }
  else s

/-- `randomize_gains` branch: as in the source, *both* new gain rows are the
    sampled factor times the (pre-update) `d_gains_all` row — the p-gain
    write uses `d_gains_all`, and the d-gain write still sees the old
    `d_gains_all` because Python evaluates its right-hand side before
    assigning. -/
def rand_gains_step (cfg : Cfg) (s : RobotState) (ids : List Nat)
    (orc : ResetOracles) : RobotState :=
  if cfg.randomize_gains then
    { s with
        p_gains_all := maskedWrite2 s.p_gains_all ids
          (fun i j => orc.p_factor i j * s.d_gains_all i j)
        d_gains_all := maskedWrite2 s.d_gains_all ids
          (fun i j => orc.d_factor i j * s.d_gains_all i j) }
  else s

/-- `randomize_coulomb_friction` branch. -/
def rand_coulomb_step (cfg : Cfg) (s : RobotState) (ids : List Nat)
    (orc : ResetOracles) : RobotState :=
  if cfg.randomize_coulomb_friction then
    { s with
        joint_coulomb := maskedWrite2 s.joint_coulomb ids orc.coulomb
        joint_viscous := maskedWrite2 s.joint_viscous ids orc.viscous }
  else s

/-- `randomize_motor_props(env_ids)`: under the `randomize_motor` master
    flag, the four sub-branches run in source order. -/
def randomize_motor_props (cfg : Cfg) (s : RobotState) (ids : List Nat)
    (orc : ResetOracles) : RobotState :=
  if cfg.randomize_motor then
    rand_coulomb_step cfg
      (rand_gains_step cfg
        (rand_offset_step cfg (rand_torque_step cfg s ids orc) ids orc)
        ids orc) ids orc
  else s

/-- Joint-friction branch of `randomize_dof_props`: with the each-joint
    flag, columns `0 .. num_dof-1` of the `env_ids` rows get per-joint
    draws; without it, the whole row is broadcast a single per-environment
    draw. -/
def rand_joint_friction_step (cfg : Cfg) (s : RobotState) (ids : List Nat)
    (orc : ResetOracles) : RobotState :=
  if cfg.randomize_joint_friction then
    if cfg.randomize_joint_friction_each_joint then
      { s with joint_friction_factor := fun i j =>
          if i ∈ ids ∧ j < cfg.num_dof then orc.jf_each i j
          else s.joint_friction_factor i j }
    else
      { s with joint_friction_factor :=
          maskedWrite2 s.joint_friction_factor ids (fun i _ => orc.jf i) }
  else s

/-- Joint-damping branch of `randomize_dof_props`. -/
def rand_joint_damping_step (cfg : Cfg) (s : RobotState) (ids : List Nat)
    (orc : ResetOracles) : RobotState :=
  if cfg.randomize_joint_damping then
    if cfg.randomize_joint_damping_each_joint then
      { s with joint_damping_factor := fun i j =>
          if i ∈ ids ∧ j < cfg.num_dof then orc.jd_each i j
          else s.joint_damping_factor i j }
    else
      { s with joint_damping_factor :=
          maskedWrite2 s.joint_damping_factor ids (fun i _ => orc.jd i) }
  else s

/-- Joint-armature branch of `randomize_dof_props`. -/
def rand_joint_armature_step (cfg : Cfg) (s : RobotState) (ids : List Nat)
    (orc : ResetOracles) : RobotState :=
  if cfg.randomize_joint_armature then
    if cfg.randomize_joint_armature_each_joint then
      { s with joint_armature_factor := fun i j =>
          if i ∈ ids ∧ j < cfg.num_dof then orc.ja_each i j
          else s.joint_armature_factor i j }
    else
      { s with joint_armature_factor :=
          maskedWrite2 s.joint_armature_factor ids (fun i _ => orc.ja i) }
  else s

/-- `randomize_dof_props(env_ids)`: friction, damping, armature factors in
    source order. -/
def randomize_dof_props (cfg : Cfg) (s : RobotState) (ids : List Nat)
    (orc : ResetOracles) : RobotState :=
  rand_joint_armature_step cfg
    (rand_joint_damping_step cfg
      (rand_joint_friction_step cfg s ids orc) ids orc) ids orc

/-!  ## Terrain curriculum: `_update_terrain_curriculum`
     (legged_robot.py lines 896-919)  -/

/-- `distance > env_length / 2` for environment `i`, with
    `distance = ‖root_xy - origin_xy‖` embedded squared (both sides of the
    comparison are non-negative for `env_length ≥ 0`). -/
def move_up_flag (cfg : Cfg) (s : RobotState) (i : Nat) : Bool :=
  decide ((cfg.env_length / 2) ^ 2 <
    (s.root_states i 0 - s.env_origins i 0) ^ 2 +
      (s.root_states i 1 - s.env_origins i 1) ^ 2)

/-- `distance < ‖commands[:2]‖ * max_episode_length_s * 0.5` and not
    `move_up`, embedded squared (valid for `max_episode_length_s ≥ 0`). -/
def move_down_flag (cfg : Cfg) (s : RobotState) (i : Nat) : Bool :=
  (decide ((s.root_states i 0 - s.env_origins i 0) ^ 2 +
      (s.root_states i 1 - s.env_origins i 1) ^ 2 <
    ((s.commands i 0) ^ 2 + (s.commands i 1) ^ 2) *
      (cfg.max_episode_length_s * (1/2)) ^ 2)) && !(move_up_flag cfg s i)

/-- `terrain_levels[env_ids] += 1 * move_up - 1 * move_down`: the terrain
    level after the delta but before the max-level reassignment. -/
def terrain_levels_after_delta (cfg : Cfg) (s : RobotState)
    (ids : List Nat) : Nat → Int :=
  fun i =>
    if i ∈ ids then
      s.terrain_levels i + (if move_up_flag cfg s i then 1 else 0)
        - (if move_down_flag cfg s i then 1 else 0)
    else s.terrain_levels i

/-- `_update_terrain_curriculum(env_ids)`: no-op before `init_done`; apply
    the ±1 delta, send levels at or above `max_terrain_level` to a random
    level in `[0, max_terrain_level)` (torch.randint_like) and clamp the
    rest below at zero, then re-derive `env_origins` from the terrain
    origin grid. -/
def update_terrain_curriculum (cfg : Cfg) (s : RobotState) (ids : List Nat)
    (rand_level : Nat → Int) : RobotState :=
  if s.init_done then
    { s with
        terrain_levels := fun i =>
          if i ∈ ids then
            (if cfg.max_terrain_level ≤ terrain_levels_after_delta cfg s ids i
             then rand_level i
             else max (terrain_levels_after_delta cfg s ids i) 0)
          else terrain_levels_after_delta cfg s ids i
        env_origins := fun i c =>
          if i ∈ ids then
            cfg.terrain_origins
              (if cfg.max_terrain_level ≤ terrain_levels_after_delta cfg s ids i
               then rand_level i
               else max (terrain_levels_after_delta cfg s ids i) 0)
              (s.terrain_types i) c
          else s.env_origins i c }
  else s

/-!  ## Command curriculum: `update_command_curriculum`
     (legged_robot.py lines 921-930)  -/

/-- Mean of `f` over the rows listed in `ids` (torch.mean on the
    fancy-indexed slice). -/
def listMean (ids : List Nat) (f : Nat → ℚ) : ℚ :=
  (ids.map f).sum / (ids.length : ℚ)

/-- `update_command_curriculum(env_ids)`: widen the lin_vel_x range by 0.5
    on each side (clipped to ±max_curriculum) when the mean episode
    tracking reward over the reset environments exceeds 80% of the
    tracking scale. -/
def update_command_curriculum (cfg : Cfg) (s : RobotState)
    (ids : List Nat) : RobotState :=
  if (8/10 : ℚ) * cfg.reward_scales "tracking_lin_vel" <
      listMean ids (s.episode_sums "tracking_lin_vel") /
        (cfg.max_episode_length : ℚ) then
    { s with command_ranges_lin_vel_x :=
        (clipQ (s.command_ranges_lin_vel_x.1 - 1/2) (-(cfg.max_curriculum)) 0,
         clipQ (s.command_ranges_lin_vel_x.2 + 1/2) 0 cfg.max_curriculum) }
  else s

/-!  ## Episode lifecycle: `reset_idx` and its callees
     (legged_robot.py lines 240-304, 306-358, 840-880)  -/

/-- `_reset_root_states(env_ids)`: rows set to `base_init_state`, columns
    0-2 offset by `env_origins` (plus a ±1 m xy draw under custom origins),
    columns 7-12 replaced by uniform ±0.5 velocity draws. -/
def reset_root_states (cfg : Cfg) (s : RobotState) (ids : List Nat)
    (orc : ResetOracles) : RobotState :=
  { s with root_states := fun i c =>
      if i ∈ ids then
        if c < 3 then
          cfg.base_init_state c + s.env_origins i c +
            (if cfg.custom_origins ∧ c < 2 then orc.root_xy i c else 0)
        else if 7 ≤ c ∧ c < 13 then orc.root_vel i c
        else cfg.base_init_state c
      else s.root_states i c }

/-- `_reset_dofs(env_ids)`: joint positions set to `default_dof_pos` times
    a uniform draw in [0.5, 1.5], joint velocities zeroed. -/
def reset_dofs (cfg : Cfg) (s : RobotState) (ids : List Nat)
    (orc : ResetOracles) : RobotState :=
  { s with
      dof_pos := maskedWrite2 s.dof_pos ids
        (fun i j => cfg.default_dof_pos j * orc.dof_pos_scale i j)
      dof_vel := maskedWrite2 s.dof_vel ids (fun _ _ => 0) }

/-- `_reset_dofs_amp(env_ids, frames)`: joint pose/velocity copied from the
    motion-loader frames (external input, the `frame_*` oracles), with a
    ±0.05 positional noise draw added under `RSI_rand`. -/
def reset_dofs_amp (cfg : Cfg) (s : RobotState) (ids : List Nat)
    (orc : ResetOracles) : RobotState :=
  { s with
      dof_pos := maskedWrite2 s.dof_pos ids
        (fun i j => orc.frame_dof_pos i j +
          (if cfg.RSI_rand then orc.rsi_noise i j else 0))
      dof_vel := maskedWrite2 s.dof_vel ids orc.frame_dof_vel }

/-- `_reset_root_states_amp(env_ids, frames)`: the frame root position with
    its xy offset by `env_origins` is recorded in `origin_xy` and written to
    root-state columns 0-2; columns 3-6 take the frame orientation and
    columns 7-12 the frame velocities rotated to the world frame. -/
def reset_root_states_amp (s : RobotState) (ids : List Nat)
    (orc : ResetOracles) : RobotState :=
  { s with
      origin_xy := maskedWrite2 s.origin_xy ids
        (fun i c => orc.frame_root_pos i c +
          (if c < 2 then s.env_origins i c else 0))
      root_states := fun i c =>
        if i ∈ ids then
          if c < 3 then
            orc.frame_root_pos i c + (if c < 2 then s.env_origins i c else 0)
          else if c < 7 then orc.frame_root_orn i (c - 3)
          else if c < 10 then orc.frame_lin_vel_world i (c - 7)
          else orc.frame_ang_vel_world i (c - 10)
        else s.root_states i c }

/-- `_resample_commands(env_ids)` as a state update. -/
def resample_commands_step (cfg : Cfg) (s : RobotState) (ids : List Nat)
    (orc : ResetOracles) : RobotState :=
  { s with commands := (resample_commands s.commands ids cfg.heading_command
      orc.cmd0 orc.cmd1 orc.cmd2) }

/-- `_refresh_actor_dof_props(env_ids)` pushes the joint friction / damping
    / armature factors into the simulator's per-actor DOF property tables
    (gym.set_actor_dof_properties): it writes only simulator-side state, no
    environment buffer. -/
def refresh_actor_dof_props_step (s : RobotState) (ids : List Nat) :
    RobotState :=
  s

/-- The `if self.cfg.terrain.curriculum` guard around
    `_update_terrain_curriculum`. -/
def terrain_curriculum_stage (cfg : Cfg) (s : RobotState) (ids : List Nat)
    (orc : ResetOracles) : RobotState :=
  if cfg.terrain_curriculum then
    update_terrain_curriculum cfg s ids orc.terrain_rand
  else s

/-- The `if self.cfg.commands.curriculum and (common_step_counter %
    max_episode_length == 0)` guard around `update_command_curriculum`. -/
def command_curriculum_stage (cfg : Cfg) (s : RobotState) (ids : List Nat) :
    RobotState :=
  if cfg.commands_curriculum &&
      (s.common_step_counter % cfg.max_episode_length == 0) then
    update_command_curriculum cfg s ids
  else s

/-- Robot-state re-placement: reference-state initialization under RSI
    (`_reset_dofs_amp` then `_reset_root_states_amp`, frames drawn from the
    motion loader either at random or at trajectory start depending on
    `RSI_traj_rand` — both arrive through the frame oracles), otherwise
    `_reset_root_states` then `_reset_dofs`. -/
def state_reset_stage (cfg : Cfg) (s : RobotState) (ids : List Nat)
    (orc : ResetOracles) : RobotState :=
  if cfg.RSI then
    reset_root_states_amp (reset_dofs_amp cfg s ids orc) ids orc
  else
    reset_dofs cfg (reset_root_states cfg s ids orc) ids orc

/-- The guard `randomize_joint_armature | randomize_joint_friction |
    randomize_joint_damping` around `_refresh_actor_dof_props`. -/
def dof_props_stage (cfg : Cfg) (s : RobotState) (ids : List Nat) :
    RobotState :=
  if cfg.randomize_joint_armature || cfg.randomize_joint_friction ||
      cfg.randomize_joint_damping then
    refresh_actor_dof_props_step s ids
  else s

/-- Everything `reset_idx` runs before the buffer resets: curriculum
    updates, robot-state re-placement, command resampling and actuator
    re-randomization, in source order. -/
def pre_buffer_state (cfg : Cfg) (s : RobotState) (ids : List Nat)
    (orc : ResetOracles) : RobotState :=
  dof_props_stage cfg
    (randomize_dof_props cfg
      (randomize_motor_props cfg
        (resample_commands_step cfg
          (state_reset_stage cfg
            (command_curriculum_stage cfg
              (terrain_curriculum_stage cfg s ids orc) ids) ids orc)
          ids orc) ids orc) ids orc) ids

/-- The buffer resets of `reset_idx`: zero the `last_*` shadow buffers, the
    air-time buffer, the step counter and the action-history rows of the
    reset environments, and flag `reset_buf = 1` there. -/
def reset_buffers_step (s : RobotState) (ids : List Nat) : RobotState :=
  { s with
      last_actions := maskedWrite2 s.last_actions ids (fun _ _ => 0)
      last_dof_vel := maskedWrite2 s.last_dof_vel ids (fun _ _ => 0)
      last_dof_pos := maskedWrite2 s.last_dof_pos ids (fun _ _ => 0)
      last_torques := maskedWrite2 s.last_torques ids (fun _ _ => 0)
      feet_air_time := maskedWrite2 s.feet_air_time ids (fun _ _ => 0)
      episode_length_buf := fun i =>
        if i ∈ ids then 0 else s.episode_length_buf i
      reset_buf := fun i => if i ∈ ids then 1 else s.reset_buf i
      action_history_buf := fun i a b =>
        if i ∈ ids then 0 else s.action_history_buf i a b }

/-- The episode-statistics block of `reset_idx`: for every key of
    `episode_sums`, report the mean episode sum of the reset environments
    normalized by the episode length in seconds, then zero those rows. -/
def reset_extras_step (cfg : Cfg) (s : RobotState) (ids : List Nat) :
    RobotState :=
  { s with
      extras_episode := cfg.reward_keys.map (fun k =>
        ("rew_" ++ k, listMean ids (s.episode_sums k) /
          cfg.max_episode_length_s))
      episode_sums := fun k i =>
        if k ∈ cfg.reward_keys ∧ i ∈ ids then 0 else s.episode_sums k i }

/-- Terrain-level telemetry (`extras["episode"]["terrain_level"]`). -/
def telemetry_terrain (cfg : Cfg) (s : RobotState) : RobotState :=
  if cfg.terrain_curriculum then
    { s with extras_terrain_level := (some (listMean (List.range cfg.num_envs)
        (fun i => ((s.terrain_levels i : Int) : ℚ)))) }
  else s

/-- Max-command telemetry (`extras["episode"]["max_command_x"]`). -/
def telemetry_command (cfg : Cfg) (s : RobotState) : RobotState :=
  if cfg.commands_curriculum then
    { s with extras_max_command_x := some s.command_ranges_lin_vel_x.2 }
  else s

/-- Timeout telemetry (`extras["time_outs"]`). -/
def telemetry_timeouts (cfg : Cfg) (s : RobotState) : RobotState :=
  if cfg.send_timeouts then
    { s with extras_time_outs := some s.time_out_buf }
  else s

/-- `reset_idx(env_ids)`: early return on an empty index set, then the
    stages in source order; the trailing telemetry writes. -/
def reset_idx (cfg : Cfg) (s : RobotState) (ids : List Nat)
    (orc : ResetOracles) : RobotState :=
  if ids.length = 0 then s
  else
    telemetry_timeouts cfg
      (telemetry_command cfg
        (telemetry_terrain cfg
          (reset_extras_step cfg
            (reset_buffers_step (pre_buffer_state cfg s ids orc) ids) ids)))

/-!  ## C8: the randomization callbacks touch only the `env_ids` rows  -/

/-- Row `i` of every randomized-parameter buffer agrees between `s1` and
    `s2`. -/
def randUnchangedAt (s1 s2 : RobotState) (i : Nat) : Prop :=
  (∀ j, s2.torque_multi i j = s1.torque_multi i j) ∧
  (∀ j, s2.motor_offsets i j = s1.motor_offsets i j) ∧
  (∀ j, s2.p_gains_all i j = s1.p_gains_all i j) ∧
  (∀ j, s2.d_gains_all i j = s1.d_gains_all i j) ∧
  (∀ j, s2.joint_coulomb i j = s1.joint_coulomb i j) ∧
  (∀ j, s2.joint_viscous i j = s1.joint_viscous i j) ∧
  (∀ j, s2.joint_friction_factor i j = s1.joint_friction_factor i j) ∧
  (∀ j, s2.joint_damping_factor i j = s1.joint_damping_factor i j) ∧
  (∀ j, s2.joint_armature_factor i j = s1.joint_armature_factor i j)

theorem randUnchangedAt_rfl (s : RobotState) (i : Nat) :
    randUnchangedAt s s i := by
  unfold randUnchangedAt
  exact ⟨fun _ => rfl, fun _ => rfl, fun _ => rfl, fun _ => rfl, fun _ => rfl,
    fun _ => rfl, fun _ => rfl, fun _ => rfl, fun _ => rfl⟩

theorem randUnchangedAt_trans {s1 s2 s3 : RobotState} {i : Nat}
    (h1 : randUnchangedAt s1 s2 i) (h2 : randUnchangedAt s2 s3 i) :
    randUnchangedAt s1 s3 i := by
  obtain ⟨a1, b1, c1, d1, e1, f1, g1, p1, q1⟩ := h1
  obtain ⟨a2, b2, c2, d2, e2, f2, g2, p2, q2⟩ := h2
  exact ⟨fun j => (a2 j).trans (a1 j), fun j => (b2 j).trans (b1 j),
    fun j => (c2 j).trans (c1 j), fun j => (d2 j).trans (d1 j),
    fun j => (e2 j).trans (e1 j), fun j => (f2 j).trans (f1 j),
    fun j => (g2 j).trans (g1 j), fun j => (p2 j).trans (p1 j),
    fun j => (q2 j).trans (q1 j)⟩

theorem rand_torque_step_unchanged (cfg : Cfg) (s : RobotState)
    (ids : List Nat) (orc : ResetOracles) (i : Nat) (hnot : i ∉ ids) :
    randUnchangedAt s (rand_torque_step cfg s ids orc) i := by
  unfold rand_torque_step
  split
  · exact ⟨fun j => by simp [maskedWrite2, hnot], fun _ => rfl, fun _ => rfl,
      fun _ => rfl, fun _ => rfl, fun _ => rfl, fun _ => rfl, fun _ => rfl,
      fun _ => rfl⟩
  · exact randUnchangedAt_rfl s i

theorem rand_offset_step_unchanged (cfg : Cfg) (s : RobotState)
    (ids : List Nat) (orc : ResetOracles) (i : Nat) (hnot : i ∉ ids) :
    randUnchangedAt s (rand_offset_step cfg s ids orc) i := by
  unfold rand_offset_step
  split
  · exact ⟨fun _ => rfl, fun j => by simp [maskedWrite2, hnot], fun _ => rfl,
      fun _ => rfl, fun _ => rfl, fun _ => rfl, fun _ => rfl, fun _ => rfl,
      fun _ => rfl⟩
  · exact randUnchangedAt_rfl s i

theorem rand_gains_step_unchanged (cfg : Cfg) (s : RobotState)
    (ids : List Nat) (orc : ResetOracles) (i : Nat) (hnot : i ∉ ids) :
    randUnchangedAt s (rand_gains_step cfg s ids orc) i := by
  unfold rand_gains_step
  split
  · exact ⟨fun _ => rfl, fun _ => rfl, fun j => by simp [maskedWrite2, hnot],
      fun j => by simp [maskedWrite2, hnot], fun _ => rfl, fun _ => rfl,
      fun _ => rfl, fun _ => rfl, fun _ => rfl⟩
  · exact randUnchangedAt_rfl s i

theorem rand_coulomb_step_unchanged (cfg : Cfg) (s : RobotState)
    (ids : List Nat) (orc : ResetOracles) (i : Nat) (hnot : i ∉ ids) :
    randUnchangedAt s (rand_coulomb_step cfg s ids orc) i := by
  unfold rand_coulomb_step
  split
  · exact ⟨fun _ => rfl, fun _ => rfl, fun _ => rfl, fun _ => rfl,
      fun j => by simp [maskedWrite2, hnot],
      fun j => by simp [maskedWrite2, hnot], fun _ => rfl, fun _ => rfl,
      fun _ => rfl⟩
  · exact randUnchangedAt_rfl s i

theorem rand_joint_friction_step_unchanged (cfg : Cfg) (s : RobotState)
    (ids : List Nat) (orc : ResetOracles) (i : Nat) (hnot : i ∉ ids) :
    randUnchangedAt s (rand_joint_friction_step cfg s ids orc) i := by
  unfold rand_joint_friction_step
  split
  · split
    · exact ⟨fun _ => rfl, fun _ => rfl, fun _ => rfl, fun _ => rfl,
        fun _ => rfl, fun _ => rfl, fun j => by simp [hnot], fun _ => rfl,
        fun _ => rfl⟩
    · exact ⟨fun _ => rfl, fun _ => rfl, fun _ => rfl, fun _ => rfl,
        fun _ => rfl, fun _ => rfl, fun j => by simp [maskedWrite2, hnot],
        fun _ => rfl, fun _ => rfl⟩
  · exact randUnchangedAt_rfl s i

theorem rand_joint_damping_step_unchanged (cfg : Cfg) (s : RobotState)
    (ids : List Nat) (orc : ResetOracles) (i : Nat) (hnot : i ∉ ids) :
    randUnchangedAt s (rand_joint_damping_step cfg s ids orc) i := by
  unfold rand_joint_damping_step
  split
  · split
    · exact ⟨fun _ => rfl, fun _ => rfl, fun _ => rfl, fun _ => rfl,
        fun _ => rfl, fun _ => rfl, fun _ => rfl, fun j => by simp [hnot],
        fun _ => rfl⟩
    · exact ⟨fun _ => rfl, fun _ => rfl, fun _ => rfl, fun _ => rfl,
        fun _ => rfl, fun _ => rfl, fun _ => rfl,
        fun j => by simp [maskedWrite2, hnot], fun _ => rfl⟩
  · exact randUnchangedAt_rfl s i

theorem rand_joint_armature_step_unchanged (cfg : Cfg) (s : RobotState)
    (ids : List Nat) (orc : ResetOracles) (i : Nat) (hnot : i ∉ ids) :
    randUnchangedAt s (rand_joint_armature_step cfg s ids orc) i := by
  unfold rand_joint_armature_step
  split
  · split
    · exact ⟨fun _ => rfl, fun _ => rfl, fun _ => rfl, fun _ => rfl,
        fun _ => rfl, fun _ => rfl, fun _ => rfl, fun _ => rfl,
        fun j => by simp [hnot]⟩
    · exact ⟨fun _ => rfl, fun _ => rfl, fun _ => rfl, fun _ => rfl,
        fun _ => rfl, fun _ => rfl, fun _ => rfl, fun _ => rfl,
        fun j => by simp [maskedWrite2, hnot]⟩
  · exact randUnchangedAt_rfl s i

theorem randomize_motor_props_unchanged (cfg : Cfg) (s : RobotState)
    (ids : List Nat) (orc : ResetOracles) (i : Nat) (hnot : i ∉ ids) :
    randUnchangedAt s (randomize_motor_props cfg s ids orc) i := by
  unfold randomize_motor_props
  split
  · exact randUnchangedAt_trans
      (rand_torque_step_unchanged cfg s ids orc i hnot)
      (randUnchangedAt_trans
        (rand_offset_step_unchanged cfg _ ids orc i hnot)
        (randUnchangedAt_trans
          (rand_gains_step_unchanged cfg _ ids orc i hnot)
          (rand_coulomb_step_unchanged cfg _ ids orc i hnot)))
  · exact randUnchangedAt_rfl s i

theorem randomize_dof_props_unchanged (cfg : Cfg) (s : RobotState)
    (ids : List Nat) (orc : ResetOracles) (i : Nat) (hnot : i ∉ ids) :
    randUnchangedAt s (randomize_dof_props cfg s ids orc) i := by
  unfold randomize_dof_props
  exact randUnchangedAt_trans
    (rand_joint_friction_step_unchanged cfg s ids orc i hnot)
    (randUnchangedAt_trans
      (rand_joint_damping_step_unchanged cfg _ ids orc i hnot)
      (rand_joint_armature_step_unchanged cfg _ ids orc i hnot))

/-- C8: running `randomize_motor_props(env_ids)` and then
    `randomize_dof_props(env_ids)` (as `reset_idx` does) leaves every
    randomized-parameter buffer row of every environment outside `env_ids`
    unchanged: torque multiplier, motor offsets, both gains, coulomb and
    viscous friction, and the joint friction / damping / armature
    factors. -/
theorem randomize_props_frame_effect (cfg : Cfg) (s : RobotState)
    (ids : List Nat) (orc : ResetOracles) (i : Nat) (hnot : i ∉ ids)
    (j : Nat) :
    (randomize_dof_props cfg (randomize_motor_props cfg s ids orc) ids
        orc).torque_multi i j = s.torque_multi i j ∧
    (randomize_dof_props cfg (randomize_motor_props cfg s ids orc) ids
        orc).motor_offsets i j = s.motor_offsets i j ∧
    (randomize_dof_props cfg (randomize_motor_props cfg s ids orc) ids
        orc).p_gains_all i j = s.p_gains_all i j ∧
    (randomize_dof_props cfg (randomize_motor_props cfg s ids orc) ids
        orc).d_gains_all i j = s.d_gains_all i j ∧
    (randomize_dof_props cfg (randomize_motor_props cfg s ids orc) ids
        orc).joint_coulomb i j = s.joint_coulomb i j ∧
    (randomize_dof_props cfg (randomize_motor_props cfg s ids orc) ids
        orc).joint_viscous i j = s.joint_viscous i j ∧
    (randomize_dof_props cfg (randomize_motor_props cfg s ids orc) ids
        orc).joint_friction_factor i j = s.joint_friction_factor i j ∧
    (randomize_dof_props cfg (randomize_motor_props cfg s ids orc) ids
        orc).joint_damping_factor i j = s.joint_damping_factor i j ∧
    (randomize_dof_props cfg (randomize_motor_props cfg s ids orc) ids
        orc).joint_armature_factor i j = s.joint_armature_factor i j := by
  obtain ⟨a, b, c, d, e, f, g, p, q⟩ := randUnchangedAt_trans
    (randomize_motor_props_unchanged cfg s ids orc i hnot)
    (randomize_dof_props_unchanged cfg _ ids orc i hnot)
  exact ⟨a j, b j, c j, d j, e j, f j, g j, p j, q j⟩

/-- A small concrete configuration: 2 environments, 1 DOF, terrain
    curriculum on, command curriculum off, RSI off, all motor/DOF
    randomization flags on with shared (non-each-joint) draws. -/
def cfg0 : Cfg where
  terrain_curriculum := true
  commands_curriculum := false
  RSI := false
  RSI_traj_rand := false
  RSI_rand := false
  randomize_motor := true
  randomize_torque := true
  randomize_motor_offset := true
  randomize_gains := true
  randomize_coulomb_friction := true
  randomize_joint_friction := true
  randomize_joint_friction_each_joint := false
  randomize_joint_damping := true
  randomize_joint_damping_each_joint := false
  randomize_joint_armature := true
  randomize_joint_armature_each_joint := false
  heading_command := false
  send_timeouts := true
  custom_origins := false
  num_envs := 2
  num_dof := 1
  max_episode_length := 5
  max_episode_length_s := 1
  max_curriculum := 1
  env_length := 2
  max_terrain_level := 1
  reward_keys := ["torques"]
  reward_scales := fun _ => 1
  default_dof_pos := fun _ => 0
  base_init_state := fun _ => 0
  terrain_origins := fun _ _ _ => 0

/-- All-zero initial buffers, `init_done` set. -/
def state0 : RobotState where
  commands := fun _ _ => 0
  dof_pos := fun _ _ => 0
  dof_vel := fun _ _ => 0
  root_states := fun _ _ => 0
  origin_xy := fun _ _ => 0
  torque_multi := fun _ _ => 0
  motor_offsets := fun _ _ => 0
  p_gains_all := fun _ _ => 0
  d_gains_all := fun _ _ => 0
  joint_coulomb := fun _ _ => 0
  joint_viscous := fun _ _ => 0
  joint_friction_factor := fun _ _ => 0
  joint_damping_factor := fun _ _ => 0
  joint_armature_factor := fun _ _ => 0
  last_actions := fun _ _ => 3
  last_dof_vel := fun _ _ => 0
  last_dof_pos := fun _ _ => 0
  last_torques := fun _ _ => 0
  feet_air_time := fun _ _ => 2
  episode_length_buf := fun _ => 7
  reset_buf := fun _ => 0
  action_history_buf := fun _ _ _ => 0
  episode_sums := fun _ _ => 4
  terrain_levels := fun _ => 0
  terrain_types := fun _ => 0
  env_origins := fun _ _ => 0
  command_ranges_lin_vel_x := (-1, 1)
  extras_episode := []
  extras_terrain_level := none
  extras_max_command_x := none
  extras_time_outs := none
  time_out_buf := fun _ => false
  common_step_counter := 0
  init_done := true

/-- All-zero randomness streams. -/
def orc0 : ResetOracles where
  cmd0 := fun _ => 0
  cmd1 := fun _ => 0
  cmd2 := fun _ => 0
  dof_pos_scale := fun _ _ => 0
  root_xy := fun _ _ => 0
  root_vel := fun _ _ => 0
  torque_multi := fun _ _ => 0
  motor_offsets := fun _ _ => 0
  p_factor := fun _ _ => 0
  d_factor := fun _ _ => 0
  coulomb := fun _ _ => 0
  viscous := fun _ _ => 0
  jf_each := fun _ _ => 0
  jf := fun _ => 0
  jd_each := fun _ _ => 0
  jd := fun _ => 0
  ja_each := fun _ _ => 0
  ja := fun _ => 0
  terrain_rand := fun _ => 0
  frame_dof_pos := fun _ _ => 0
  frame_dof_vel := fun _ _ => 0
  rsi_noise := fun _ _ => 0
  frame_root_pos := fun _ _ => 0
  frame_root_orn := fun _ _ => 0
  frame_lin_vel_world := fun _ _ => 0
  frame_ang_vel_world := fun _ _ => 0

theorem randomize_props_frame_effect_witness :
    ((1:Nat) ∉ ([0] : List Nat)) ∧
      ((randomize_dof_props cfg0 (randomize_motor_props cfg0 state0 [0] orc0)
          [0] orc0).torque_multi 1 0 = state0.torque_multi 1 0 ∧
        (randomize_dof_props cfg0 (randomize_motor_props cfg0 state0 [0] orc0)
          [0] orc0).motor_offsets 1 0 = state0.motor_offsets 1 0 ∧
        (randomize_dof_props cfg0 (randomize_motor_props cfg0 state0 [0] orc0)
          [0] orc0).p_gains_all 1 0 = state0.p_gains_all 1 0 ∧
        (randomize_dof_props cfg0 (randomize_motor_props cfg0 state0 [0] orc0)
          [0] orc0).d_gains_all 1 0 = state0.d_gains_all 1 0 ∧
        (randomize_dof_props cfg0 (randomize_motor_props cfg0 state0 [0] orc0)
          [0] orc0).joint_coulomb 1 0 = state0.joint_coulomb 1 0 ∧
        (randomize_dof_props cfg0 (randomize_motor_props cfg0 state0 [0] orc0)
          [0] orc0).joint_viscous 1 0 = state0.joint_viscous 1 0 ∧
        (randomize_dof_props cfg0 (randomize_motor_props cfg0 state0 [0] orc0)
          [0] orc0).joint_friction_factor 1 0 =
            state0.joint_friction_factor 1 0 ∧
        (randomize_dof_props cfg0 (randomize_motor_props cfg0 state0 [0] orc0)
          [0] orc0).joint_damping_factor 1 0 =
            state0.joint_damping_factor 1 0 ∧
        (randomize_dof_props cfg0 (randomize_motor_props cfg0 state0 [0] orc0)
          [0] orc0).joint_armature_factor 1 0 =
            state0.joint_armature_factor 1 0) :=
  ⟨by decide, randomize_props_frame_effect cfg0 state0 [0] orc0 1 (by decide) 0⟩

/-- C6: for every reset environment the terrain level moves by exactly +1,
    -1 or 0 before the max-level reassignment; after the full update every
    terrain level lies in `[0, max_terrain_level]` (given levels start in
    that range and the randint draws land in `[0, max_terrain_level)`, as
    torch.randint_like guarantees). -/
theorem update_terrain_curriculum_bounds (cfg : Cfg) (s : RobotState)
    (ids : List Nat) (rand_level : Nat → Int)
    (hinit : s.init_done = true)
    (hrand : ∀ i, 0 ≤ rand_level i ∧ rand_level i < cfg.max_terrain_level)
    (hlvl : ∀ i, 0 ≤ s.terrain_levels i ∧
      s.terrain_levels i ≤ cfg.max_terrain_level) :
    (∀ i ∈ ids,
      terrain_levels_after_delta cfg s ids i - s.terrain_levels i = 1 ∨
      terrain_levels_after_delta cfg s ids i - s.terrain_levels i = -1 ∨
      terrain_levels_after_delta cfg s ids i - s.terrain_levels i = 0) ∧
    (∀ i,
      0 ≤ (update_terrain_curriculum cfg s ids rand_level).terrain_levels i ∧
      (update_terrain_curriculum cfg s ids rand_level).terrain_levels i ≤
        cfg.max_terrain_level) := by
  constructor
  · intro i hmem
    unfold terrain_levels_after_delta
    rw [if_pos hmem]
    cases hu : move_up_flag cfg s i <;> cases hd : move_down_flag cfg s i <;>
      simp
  · intro i
    have hr := hrand i
    have hl := hlvl i
    unfold update_terrain_curriculum
    rw [if_pos hinit]
    dsimp only
    by_cases hmem : i ∈ ids
    · rw [if_pos hmem]
      have hdelta : terrain_levels_after_delta cfg s ids i =
          s.terrain_levels i + (if move_up_flag cfg s i then 1 else 0)
            - (if move_down_flag cfg s i then 1 else 0) := by
        unfold terrain_levels_after_delta
        rw [if_pos hmem]
      by_cases hcap : cfg.max_terrain_level ≤
          terrain_levels_after_delta cfg s ids i
      · rw [if_pos hcap]
        omega
      · rw [if_neg hcap]
        rw [hdelta] at hcap ⊢
        cases hu : move_up_flag cfg s i <;>
          cases hd : move_down_flag cfg s i <;>
            simp [hu, hd] at hcap ⊢ <;> omega
    · rw [if_neg hmem]
      unfold terrain_levels_after_delta
      rw [if_neg hmem]
      omega

theorem update_terrain_curriculum_bounds_witness :
    state0.init_done = true ∧
      (0 ≤ orc0.terrain_rand 0 ∧ orc0.terrain_rand 0 < cfg0.max_terrain_level) ∧
      (0 ≤ (update_terrain_curriculum cfg0 state0 [0]
          orc0.terrain_rand).terrain_levels 0 ∧
        (update_terrain_curriculum cfg0 state0 [0]
          orc0.terrain_rand).terrain_levels 0 ≤ cfg0.max_terrain_level) := by
  refine ⟨rfl, ⟨le_refl 0, by norm_num [orc0, cfg0]⟩, ?_⟩
  exact (update_terrain_curriculum_bounds cfg0 state0 [0] orc0.terrain_rand
    rfl (fun i => ⟨le_refl 0, by norm_num [orc0, cfg0]⟩)
    (fun i => ⟨le_refl 0, by norm_num [state0, cfg0]⟩)).2 0

/-!  ## C4: every stage before the episode-statistics block preserves
     `episode_sums`, so the reported means use the pre-reset sums  -/

theorem update_terrain_curriculum_episode_sums (cfg : Cfg) (s : RobotState)
    (ids : List Nat) (r : Nat → Int) :
    (update_terrain_curriculum cfg s ids r).episode_sums = s.episode_sums := by
  unfold update_terrain_curriculum
  split <;> rfl

theorem terrain_curriculum_stage_episode_sums (cfg : Cfg) (s : RobotState)
    (ids : List Nat) (orc : ResetOracles) :
    (terrain_curriculum_stage cfg s ids orc).episode_sums =
      s.episode_sums := by
  unfold terrain_curriculum_stage
  split
  · exact update_terrain_curriculum_episode_sums cfg s ids orc.terrain_rand
  · rfl

theorem update_command_curriculum_episode_sums (cfg : Cfg) (s : RobotState)
    (ids : List Nat) :
    (update_command_curriculum cfg s ids).episode_sums = s.episode_sums := by
  unfold update_command_curriculum
  split <;> rfl

theorem command_curriculum_stage_episode_sums (cfg : Cfg) (s : RobotState)
    (ids : List Nat) :
    (command_curriculum_stage cfg s ids).episode_sums = s.episode_sums := by
  unfold command_curriculum_stage
  split
  · exact update_command_curriculum_episode_sums cfg s ids
  · rfl

theorem state_reset_stage_episode_sums (cfg : Cfg) (s : RobotState)
    (ids : List Nat) (orc : ResetOracles) :
    (state_reset_stage cfg s ids orc).episode_sums = s.episode_sums := by
  unfold state_reset_stage
  split <;> rfl

theorem rand_torque_step_episode_sums (cfg : Cfg) (s : RobotState)
    (ids : List Nat) (orc : ResetOracles) :
    (rand_torque_step cfg s ids orc).episode_sums = s.episode_sums := by
  unfold rand_torque_step
  split <;> rfl

theorem rand_offset_step_episode_sums (cfg : Cfg) (s : RobotState)
    (ids : List Nat) (orc : ResetOracles) :
    (rand_offset_step cfg s ids orc).episode_sums = s.episode_sums := by
  unfold rand_offset_step
  split <;> rfl

theorem rand_gains_step_episode_sums (cfg : Cfg) (s : RobotState)
    (ids : List Nat) (orc : ResetOracles) :
    (rand_gains_step cfg s ids orc).episode_sums = s.episode_sums := by
  unfold rand_gains_step
  split <;> rfl

theorem rand_coulomb_step_episode_sums (cfg : Cfg) (s : RobotState)
    (ids : List Nat) (orc : ResetOracles) :
    (rand_coulomb_step cfg s ids orc).episode_sums = s.episode_sums := by
  unfold rand_coulomb_step
  split <;> rfl

theorem randomize_motor_props_episode_sums (cfg : Cfg) (s : RobotState)
    (ids : List Nat) (orc : ResetOracles) :
    (randomize_motor_props cfg s ids orc).episode_sums = s.episode_sums := by
  unfold randomize_motor_props
  split
  · rw [rand_coulomb_step_episode_sums, rand_gains_step_episode_sums,
      rand_offset_step_episode_sums, rand_torque_step_episode_sums]
  · rfl

theorem rand_joint_friction_step_episode_sums (cfg : Cfg) (s : RobotState)
    (ids : List Nat) (orc : ResetOracles) :
    (rand_joint_friction_step cfg s ids orc).episode_sums =
      s.episode_sums := by
  unfold rand_joint_friction_step
  split
  · split <;> rfl
  · rfl

theorem rand_joint_damping_step_episode_sums (cfg : Cfg) (s : RobotState)
    (ids : List Nat) (orc : ResetOracles) :
    (rand_joint_damping_step cfg s ids orc).episode_sums =
      s.episode_sums := by
  unfold rand_joint_damping_step
  split
  · split <;> rfl
  · rfl

theorem rand_joint_armature_step_episode_sums (cfg : Cfg) (s : RobotState)
    (ids : List Nat) (orc : ResetOracles) :
    (rand_joint_armature_step cfg s ids orc).episode_sums =
      s.episode_sums := by
  unfold rand_joint_armature_step
  split
  · split <;> rfl
  · rfl

theorem randomize_dof_props_episode_sums (cfg : Cfg) (s : RobotState)
    (ids : List Nat) (orc : ResetOracles) :
    (randomize_dof_props cfg s ids orc).episode_sums = s.episode_sums := by
  unfold randomize_dof_props
  rw [rand_joint_armature_step_episode_sums,
    rand_joint_damping_step_episode_sums,
    rand_joint_friction_step_episode_sums]

theorem dof_props_stage_episode_sums (cfg : Cfg) (s : RobotState)
    (ids : List Nat) :
    (dof_props_stage cfg s ids).episode_sums = s.episode_sums := by
  unfold dof_props_stage refresh_actor_dof_props_step
  split <;> rfl

theorem pre_buffer_state_episode_sums (cfg : Cfg) (s : RobotState)
    (ids : List Nat) (orc : ResetOracles) :
    (pre_buffer_state cfg s ids orc).episode_sums = s.episode_sums := by
  unfold pre_buffer_state
  rw [dof_props_stage_episode_sums, randomize_dof_props_episode_sums,
    randomize_motor_props_episode_sums]
  show (resample_commands_step _ _ _ _).episode_sums = _
  rw [show ∀ c st i o, (resample_commands_step c st i o).episode_sums =
      st.episode_sums from fun _ _ _ _ => rfl]
  rw [state_reset_stage_episode_sums, command_curriculum_stage_episode_sums,
    terrain_curriculum_stage_episode_sums]

/-- The trailing telemetry writes of `reset_idx` touch only the `extras_*`
    telemetry fields. -/
theorem telemetry_preserves (cfg : Cfg) (s : RobotState) :
    (telemetry_timeouts cfg (telemetry_command cfg
        (telemetry_terrain cfg s))).episode_length_buf =
      s.episode_length_buf ∧
    (telemetry_timeouts cfg (telemetry_command cfg
        (telemetry_terrain cfg s))).last_actions = s.last_actions ∧
    (telemetry_timeouts cfg (telemetry_command cfg
        (telemetry_terrain cfg s))).feet_air_time = s.feet_air_time ∧
    (telemetry_timeouts cfg (telemetry_command cfg
        (telemetry_terrain cfg s))).reset_buf = s.reset_buf ∧
    (telemetry_timeouts cfg (telemetry_command cfg
        (telemetry_terrain cfg s))).episode_sums = s.episode_sums ∧
    (telemetry_timeouts cfg (telemetry_command cfg
        (telemetry_terrain cfg s))).extras_episode = s.extras_episode := by
  unfold telemetry_timeouts telemetry_command telemetry_terrain
  split_ifs <;> exact ⟨rfl, rfl, rfl, rfl, rfl, rfl⟩

/-- C4: `reset_idx` on an empty index set is a no-op; on a non-empty set,
    every reset environment ends with a zero step counter, zero
    `last_actions` row, zero `feet_air_time` row, `reset_buf = 1`, and a
    zero episode sum for every registered reward term, while the reported
    per-term episode statistics are the means of the *pre-reset* sums over
    the reset environments normalized by the episode length in seconds. -/
theorem reset_idx_spec (cfg : Cfg) (s : RobotState) (ids : List Nat)
    (orc : ResetOracles) :
    (ids = [] → reset_idx cfg s ids orc = s) ∧
    (∀ i, i ∈ ids →
      (reset_idx cfg s ids orc).episode_length_buf i = 0 ∧
      (∀ j, (reset_idx cfg s ids orc).last_actions i j = 0) ∧
      (∀ j, (reset_idx cfg s ids orc).feet_air_time i j = 0) ∧
      (reset_idx cfg s ids orc).reset_buf i = 1 ∧
      (∀ k, k ∈ cfg.reward_keys →
        (reset_idx cfg s ids orc).episode_sums k i = 0)) ∧
    (ids ≠ [] → (reset_idx cfg s ids orc).extras_episode =
      cfg.reward_keys.map (fun k => ("rew_" ++ k,
        listMean ids (s.episode_sums k) / cfg.max_episode_length_s))) := by
  refine ⟨?_, ?_, ?_⟩
  · intro h
    subst h
    rfl
  · intro i hmem
    have hne : ids.length ≠ 0 := by
      intro h0
      rw [List.length_eq_zero] at h0
      subst h0
      simp at hmem
    unfold reset_idx
    rw [if_neg hne]
    obtain ⟨t1, t2, t3, t4, t5, t6⟩ := telemetry_preserves cfg
      (reset_extras_step cfg
        (reset_buffers_step (pre_buffer_state cfg s ids orc) ids) ids)
    rw [t1, t2, t3, t4, t5]
    refine ⟨?_, fun j => ?_, fun j => ?_, ?_, fun k hk => ?_⟩
    · show (reset_buffers_step _ _).episode_length_buf i = 0
      simp [reset_buffers_step, hmem]
    · show (reset_buffers_step _ _).last_actions i j = 0
      simp [reset_buffers_step, maskedWrite2, hmem]
    · show (reset_buffers_step _ _).feet_air_time i j = 0
      simp [reset_buffers_step, maskedWrite2, hmem]
    · show (reset_buffers_step _ _).reset_buf i = 1
      simp [reset_buffers_step, hmem]
    · show (reset_extras_step _ _ _).episode_sums k i = 0
      simp [reset_extras_step, hmem, hk]
  · intro hne0
    have hne : ids.length ≠ 0 := fun h0 => hne0 (List.length_eq_zero.mp h0)
    unfold reset_idx
    rw [if_neg hne]
    obtain ⟨t1, t2, t3, t4, t5, t6⟩ := telemetry_preserves cfg
      (reset_extras_step cfg
        (reset_buffers_step (pre_buffer_state cfg s ids orc) ids) ids)
    rw [t6]
    show cfg.reward_keys.map _ = cfg.reward_keys.map _
    have hsum : (reset_buffers_step (pre_buffer_state cfg s ids orc)
        ids).episode_sums = s.episode_sums :=
      pre_buffer_state_episode_sums cfg s ids orc
    simp only [reset_extras_step, hsum]

theorem reset_idx_spec_witness :
    ((0:Nat) ∈ [0]) ∧
      (reset_idx cfg0 state0 [0] orc0).episode_length_buf 0 = 0 ∧
      (reset_idx cfg0 state0 [0] orc0).last_actions 0 0 = 0 ∧
      (reset_idx cfg0 state0 [0] orc0).feet_air_time 0 0 = 0 ∧
      (reset_idx cfg0 state0 [0] orc0).reset_buf 0 = 1 ∧
      (reset_idx cfg0 state0 [0] orc0).episode_sums "torques" 0 = 0 := by
  have h := (reset_idx_spec cfg0 state0 [0] orc0).2.1 0 (by simp)
  exact ⟨by simp, h.1, h.2.1 0, h.2.2.1 0, h.2.2.2.1,
    h.2.2.2.2 "torques" (by simp [cfg0])⟩

/-!  ## Height sampling: `_get_heights`
     (legged_robot.py lines 1381-1417)  -/

/-- torch `.long()`: truncation of a rational toward zero. -/
def truncQ (q : ℚ) : Int := if q < 0 then -(Int.floor (-q)) else Int.floor q

/-- Integer clip (torch.clip on index tensors). -/
def clipI (x lo hi : Int) : Int := min (max x lo) hi

/-- The inputs `_get_heights` reads.  `quat_apply_yaw` lives in
    legged_gym.utils.math, outside the sources at hand; per the spec it
    rotates a body-frame offset into the world frame by yaw only, and is
    carried here as an opaque function parameter — the claims about
    `_get_heights` hold for every such rotation. -/
structure HeightsParams where
  mesh_type : String
  num_envs : Nat
  num_height_points : Nat
  base_quat : Nat → ℚ × ℚ × ℚ × ℚ
  height_points : Nat → Nat → ℚ × ℚ × ℚ
  root_pos : Nat → ℚ × ℚ × ℚ
  border_size : ℚ
  horizontal_scale : ℚ
  vertical_scale : ℚ
  height_samples : Nat → Nat → ℚ
  hs_shape0 : Nat
  hs_shape1 : Nat
  quat_apply_yaw : (ℚ × ℚ × ℚ × ℚ) → (ℚ × ℚ × ℚ) → ℚ × ℚ × ℚ

/-- The `env_ids` argument as the Python call site can supply it: the
    default `None`, a Python list (the docstring type `List[int]`), or a
    torch index tensor (what the codebase's env-id collections are, e.g.
    `reset_buf.nonzero().flatten()`). -/
inductive EnvIds
  | none
  | pylist (l : List Nat)
  | tensor (l : List Nat)

/-- The indices carried by an `env_ids` argument. -/
def EnvIds.toList : EnvIds → List Nat
  | EnvIds.none => []
  | EnvIds.pylist l => l
  | EnvIds.tensor l => l

/-- Python truthiness of `env_ids` as evaluated by `if env_ids:`.  `None`
    and an empty list are falsy, a non-empty list is truthy; for a tensor,
    `Tensor.__bool__` raises a RuntimeError on zero elements and on more
    than one element, and a one-element tensor is truthy iff its element is
    non-zero. -/
def env_ids_bool : EnvIds → Except String Bool
  | EnvIds.none => Except.ok false
  | EnvIds.pylist l => Except.ok (!l.isEmpty)
  | EnvIds.tensor [] =>
      Except.error "Boolean value of Tensor with no values is ambiguous"
  | EnvIds.tensor [i] => Except.ok (decide (i ≠ 0))
  | EnvIds.tensor (_ :: _ :: _) =>
      Except.error
        "Boolean value of Tensor with more than one element is ambiguous"

/-- The measured height for row `i`, sample point `j`: rotate the sample
    offset by yaw, add the root position and the border offset, scale to
    grid indices with truncation, clip them into the sample grid, and take
    the minimum of the three neighbouring cells. -/
def measured_height (p : HeightsParams) (i j : Nat) : ℚ :=
  let pt := p.quat_apply_yaw (p.base_quat i) (p.height_points i j)
  let wx := pt.1 + (p.root_pos i).1 + p.border_size
  let wy := pt.2.1 + (p.root_pos i).2.1 + p.border_size
  let px := clipI (truncQ (wx / p.horizontal_scale)) 0 ((p.hs_shape0 : Int) - 2)
  let py := clipI (truncQ (wy / p.horizontal_scale)) 0 ((p.hs_shape1 : Int) - 2)
  let h1 := p.height_samples px.toNat py.toNat
  let h2 := p.height_samples (px.toNat + 1) py.toNat
  let h3 := p.height_samples px.toNat (py.toNat + 1)
  min (min h1 h2) h3

/-- `_get_heights(env_ids)`: zeros under a plane terrain, an error under a
    "none" terrain; otherwise `if env_ids:` is evaluated — a RuntimeError
    from `Tensor.__bool__` propagates — and the selected rows (all rows
    when `env_ids` is falsy) are measured pointwise, flattened, reshaped to
    `num_envs` rows (`heights.view(self.num_envs, -1)`) and scaled by the
    vertical scale. -/
def get_heights (p : HeightsParams) (env_ids : EnvIds) :
    Except String (List (List ℚ)) :=
  if p.mesh_type = "plane" then
    Except.ok ((List.range p.num_envs).map
      (fun _ => (List.range p.num_height_points).map (fun _ => (0:ℚ))))
  else if p.mesh_type = "none" then
    Except.error "Cannot measure height with terrain mesh type none"
  else
    (env_ids_bool env_ids).bind (fun truthy =>
      let rows : List Nat :=
        if truthy then env_ids.toList else List.range p.num_envs
      let flat : List ℚ := rows.flatMap (fun i =>
        (List.range p.num_height_points).map (fun j => measured_height p i j))
      let chunk : Nat := flat.length / p.num_envs
      Except.ok ((List.range p.num_envs).map (fun r =>
        (List.range chunk).map (fun c =>
          flat.getD (r * chunk + c) 0 * p.vertical_scale))))

def heightsParams0 : HeightsParams where
  mesh_type := "trimesh"
  num_envs := 2
  num_height_points := 1
  base_quat := fun _ => (0, 0, 0, 1)
  height_points := fun _ _ => (0, 0, 0)
  root_pos := fun _ => (0, 0, 0)
  border_size := 0
  horizontal_scale := 1
  vertical_scale := 1
  height_samples := fun _ _ => 0
  hs_shape0 := 3
  hs_shape1 := 3
  quat_apply_yaw := fun _ v => v

/-- C10 counterexample: under a non-plane terrain, `_get_heights` called
    with a *zero-length tensor* does not return the full-batch heights —
    `if env_ids:` raises (`Tensor.__bool__` is ambiguous for 0 elements) —
    while `env_ids=None` returns the heights of all environments, so the
    two calls disagree at this concrete input. -/
theorem get_heights_zero_length_tensor_raises :
    get_heights heightsParams0 (EnvIds.tensor []) =
      Except.error "Boolean value of Tensor with no values is ambiguous" ∧
    get_heights heightsParams0 EnvIds.none = Except.ok [[(0:ℚ)], [0]] ∧
    get_heights heightsParams0 (EnvIds.tensor []) ≠
      get_heights heightsParams0 EnvIds.none := by
  have h1 : get_heights heightsParams0 (EnvIds.tensor []) =
      Except.error "Boolean value of Tensor with no values is ambiguous" :=
    rfl
  have h2 : get_heights heightsParams0 EnvIds.none =
      Except.ok [[(0:ℚ)], [0]] := by
    norm_num [get_heights, heightsParams0, env_ids_bool, Except.bind,
      EnvIds.toList, measured_height, truncQ, clipI, List.range_succ]
    intro ha hb
    exact absurd hb (by decide)
  refine ⟨h1, h2, ?_⟩
  rw [h1, h2]
  simp

/-- C10 (amended): calling `_get_heights` with an empty Python *list*
    `env_ids` takes the falsy branch of `if env_ids:` exactly like
    `env_ids=None` — the per-index subsetting is skipped and the result is
    the full-batch height computation, with one row per environment, not an
    empty result for the requested empty subset.  (A zero-length *tensor*
    instead raises, see the counterexample.) -/
theorem get_heights_empty_list_full_batch (p : HeightsParams) :
    get_heights p (EnvIds.pylist []) = get_heights p EnvIds.none ∧
    (∀ res, get_heights p (EnvIds.pylist []) = Except.ok res →
      res.length = p.num_envs) := by
  constructor
  · rfl
  · intro res hok
    unfold get_heights at hok
    split at hok
    · simp only [Except.ok.injEq] at hok
      subst hok
      simp
    · split at hok
      · exact absurd hok (by simp)
      · rw [show env_ids_bool (EnvIds.pylist []) = Except.ok false from rfl]
          at hok
        simp only [Except.bind, Bool.false_eq_true, if_false,
          Except.ok.injEq] at hok
        subst hok
        simp

theorem get_heights_empty_list_full_batch_witness :
    get_heights heightsParams0 (EnvIds.pylist []) =
        get_heights heightsParams0 EnvIds.none ∧
      (get_heights heightsParams0 (EnvIds.pylist []) =
        Except.ok [[(0:ℚ)], [0]] ∧ ([[(0:ℚ)], [0]] : List (List ℚ)).length =
          heightsParams0.num_envs) := by
  have h := get_heights_empty_list_full_batch heightsParams0
  have hval : get_heights heightsParams0 (EnvIds.pylist []) =
      Except.ok [[(0:ℚ)], [0]] := by
    norm_num [get_heights, heightsParams0, env_ids_bool, Except.bind,
      EnvIds.toList, measured_height, truncQ, clipI, List.range_succ]
    intro ha hb
    exact absurd hb (by decide)
  exact ⟨h.1, hval, h.2 [[(0:ℚ)], [0]] hval⟩

end LeggedRobot
